import Mathlib

/-!
Verification of the identity-resolution and aggregation core of the
sleeper-player-database scripts.

The definitions below are a shallow embedding of the Python sources:
  * `generate_name_variations`, `create_normalized_name_lookup` and the
    per-player matching loop of `enhanced_match_players_to_adp`
    (scripts/collect_nfl_data.py),
  * `save_performance_data` (scripts/collect_nfl_data.py),
  * `update_season_totals` and the per-row merge loop of
    `update_performance_tracking` (scripts/weekly_performance_tracker.py),
  * `save_draft_database` (scripts/generate_draft_database.py) and the
    direct store write of `update_performance_tracking`.

Numeric statistics are Python floats in the source; they are modelled over
`Int` (all properties proved here are control-flow properties that do not
depend on fractional values).  Python `dict`s are modelled as insertion-
ordered association lists (`assocSet` replaces in place, inserts at the
end, exactly like `d[k] = v`), and Python `set`s of strings as insertion-
ordered duplicate-free lists (order is unspecified in the source; the
canonical order used here stands in for it and no theorem depends on it).
String helpers are defined structurally over `String.data` so that every
definition evaluates inside the kernel.
-/

/-! ## String primitives (ASCII models of the Python `str` methods used) -/

/-- ASCII model of `str.lower` on one character. -/
def charLower (c : Char) : Char :=
  if 'A' ≤ c ∧ c ≤ 'Z' then Char.ofNat (c.toNat + 32) else c

/-- ASCII model of `str.upper` on one character. -/
def charUpper (c : Char) : Char :=
  if 'a' ≤ c ∧ c ≤ 'z' then Char.ofNat (c.toNat - 32) else c

/-- Model of `str.lower` (ASCII range, which covers the names involved). -/
def pyLower (s : String) : String := String.mk (s.data.map charLower)

/-- Model of `str.upper` (ASCII range). -/
def pyUpper (s : String) : String := String.mk (s.data.map charUpper)

/-- Whether `pat` is a prefix of `l`. -/
def isPrefixList : List Char → List Char → Bool
  | [], _ => true
  | _ :: _, [] => false
  | p :: ps, c :: cs => p = c && isPrefixList ps cs

/-- Fuel-indexed worker for `pyReplace`; the fuel is the length of the
remaining text, so it never runs out. -/
def replaceList (pat rep : List Char) : Nat → List Char → List Char
  | _, [] => []
  | 0, l => l
  | fuel + 1, c :: cs =>
    if pat ≠ [] && isPrefixList pat (c :: cs) then
      rep ++ replaceList pat rep fuel (List.drop (pat.length - 1) cs)
    else
      c :: replaceList pat rep fuel cs

/-- Model of `str.replace(pat, rep)`: replaces every non-overlapping
occurrence, left to right.  (The source never calls it with an empty
pattern; here an empty pattern is a no-op.) -/
def pyReplace (s pat rep : String) : String :=
  String.mk (replaceList pat.data rep.data s.data.length s.data)

/-- Drops leading whitespace characters. -/
def dropLeadingWs : List Char → List Char
  | [] => []
  | c :: cs => if c.isWhitespace then dropLeadingWs cs else c :: cs

/-- Model of `str.strip()`. -/
def pyStrip (s : String) : String :=
  String.mk (dropLeadingWs (dropLeadingWs s.data.reverse).reverse)

/-- Worker for `pySplit`: accumulates the current word in reverse. -/
def splitWsAux : List Char → List Char → List String
  | [], acc => if acc = [] then [] else [String.mk acc.reverse]
  | c :: cs, acc =>
    if c.isWhitespace then
      if acc = [] then splitWsAux cs []
      else String.mk acc.reverse :: splitWsAux cs []
    else
      splitWsAux cs (c :: acc)

/-- Model of `str.split()` with no argument: splits on runs of whitespace,
dropping empty tokens. -/
def pySplit (s : String) : List String := splitWsAux s.data []

/-- Whether `pat` occurs as a substring (model of Python's `pat in s`). -/
def subOccurs (pat : List Char) : List Char → Bool
  | [] => pat = []
  | c :: cs => isPrefixList pat (c :: cs) || subOccurs pat cs

/-- Model of `pat in s` for strings. -/
def pyContains (s pat : String) : Bool := subOccurs pat.data s.data

/-- Model of `sep.join(parts)`. -/
def joinWith (sep : String) : List String → String
  | [] => ""
  | [s] => s
  | s :: rest => s ++ sep ++ joinWith sep rest

/-- Model of `str.endswith(suf)`. -/
def pyEndsWith (s suf : String) : Bool :=
  isPrefixList suf.data.reverse s.data.reverse

/-- The first character of a non-empty string, as a string (`first[0]`). -/
def strHead (s : String) : String :=
  match s.data with
  | [] => ""
  | c :: _ => String.mk [c]

/-- The length of a string in characters (`len`). -/
def strLen (s : String) : Nat := s.data.length

/-- An apostrophe, written via its code point. -/
def apostrophe : String := String.mk [Char.ofNat 39]

/-! ## NameNormalizer: `generate_name_variations` (collect_nfl_data.py) -/

/-- Adds a string to an insertion-ordered duplicate-free list
(`variations.add(...)` on a Python set). -/
def addVar (l : List String) (v : String) : List String :=
  if l.contains v then l else l ++ [v]

/-- The suffix list of the source, applied in order; each step replaces the
lower-case form and then its upper-case form (`suffix.upper()`), cumulatively. -/
def suffixList : List String := [" jr", " jr.", " sr", " sr.", " ii", " iii", " iv"]

/-- The suffix-removal loop of `generate_name_variations`. -/
def stripSuffixes (s : String) : String :=
  suffixList.foldl (fun acc suf => pyReplace (pyReplace acc suf "") (pyUpper suf) "") s

/-- The static `first_name_map` of `generate_name_variations`. -/
def firstNameMap : List (String × List String) :=
  [ ("C.", ["Christian", "Chris", "Calvin", "Cameron", "Cam"])
  , ("A.", ["Adrian", "Antonio", "Anthony", "Aaron", "Andre"])
  , ("D.", ["David", "Daniel", "Dak", "DK", "Davante"])
  , ("J.", ["James", "Josh", "Justin", "Jaylen", "Jalen"])
  , ("T.", ["Tyler", "Tua", "Travis", "Tyreek"])
  , ("K.", ["Kyle", "Kyler", "Kenneth"])
  , ("M.", ["Mike", "Michael", "Mark", "Matt", "Matthew"])
  , ("R.", ["Robert", "Ryan", "Russell", "Romeo"])
  , ("S.", ["Sam", "Samuel", "Saquon", "Stefan"]) ]

/-- The static `nickname_map` of `generate_name_variations`
(insertion order of the Python dict). -/
def nicknameMap : List (String × String) :=
  [ ("dk", "D.K."), ("aj", "A.J."), ("cj", "C.J."), ("tj", "T.J.")
  , ("jj", "J.J."), ("rj", "R.J."), ("bj", "B.J."), ("pj", "P.J.")
  , ("ceedee", "CeeDee"), ("cmc", "Christian McCaffrey"), ("cmac", "Christian McCaffrey") ]

/-- The initial-form and reverse-initial-expansion block of
`generate_name_variations` (the `len(name_parts) >= 2` branch). -/
def initialFormVariations (name : String) (vars : List String) : List String :=
  let parts := pySplit name
  if parts.length ≥ 2 then
    let first := parts.headD ""
    let last := joinWith " " (parts.drop 1)
    let vars :=
      if strLen first > 1 then
        addVar (addVar vars (pyLower (strHead first ++ ". " ++ last)))
          (pyLower (strHead first ++ " " ++ last))
      else vars
    if strLen first = 2 && pyEndsWith first "." then
      match firstNameMap.find? (fun kv => kv.1 = first) with
      | some kv => kv.2.foldl (fun acc fn => addVar acc (pyLower (fn ++ " " ++ last))) vars
      | none => vars
    else vars
  else vars

/-- The nickname-substitution block of `generate_name_variations`. -/
def nicknameVariations (nameLower : String) (vars : List String) : List String :=
  nicknameMap.foldl (fun acc kv =>
    let acc :=
      if pyContains nameLower kv.1 then addVar acc (pyReplace nameLower kv.1 (pyLower kv.2))
      else acc
    if pyContains nameLower (pyLower kv.2) then
      addVar acc (pyReplace nameLower (pyLower kv.2) kv.1)
    else acc) vars

/-- The final cleanup of `generate_name_variations`: whitespace-normalize
every variant and drop empty strings (and duplicates, as in the Python set). -/
def cleanVariations (vars : List String) : List String :=
  vars.foldl (fun acc v =>
    let c := joinWith " " (pySplit v)
    if c ≠ "" && !acc.contains c then acc ++ [c] else acc) []

/-- `generate_name_variations` of collect_nfl_data.py.  A false-y (empty)
input returns the empty list; otherwise the name is stripped and the
variant set is built in the order of the source.  The Python function
returns `list(set)`; the insertion-ordered duplicate-free list used here
has the same membership. -/
def generate_name_variations (name : String) : List String :=
  if name = "" then []
  else
    let name := pyStrip name
    let vars : List String := []
    let vars := addVar vars (pyLower name)
    let vars := addVar vars (pyLower (pyReplace name "." ""))
    let vars := addVar vars (pyLower (pyReplace name apostrophe ""))
    let vars := addVar vars (pyStrip (pyLower (stripSuffixes name)))
    let vars := initialFormVariations name vars
    let vars := nicknameVariations (pyLower name) vars
    cleanVariations vars

/-! ## Association lists: the model of Python dicts -/

/-- `d[k]` on an association list (Python dict lookup). -/
def assocFind {α : Type} (l : List (String × α)) (k : String) : Option α :=
  match l with
  | [] => none
  | kv :: rest => if kv.1 = k then some kv.2 else assocFind rest k

/-- `d[k] = v` on an association list: replaces in place if the key exists,
appends otherwise — exactly the Python dict update. -/
def assocSet {α : Type} (l : List (String × α)) (k : String) (v : α) :
    List (String × α) :=
  match l with
  | [] => [(k, v)]
  | kv :: rest => if kv.1 = k then (k, v) :: rest else kv :: assocSet rest k v

/-! ## IdentityIndex: `create_normalized_name_lookup` (collect_nfl_data.py) -/

/-- An ADP record as read by the lookup builder: the builder uses only its
`name` field and stores the whole record.  `position`/`team` are carried so
distinct records are distinguishable. -/
structure AdpPlayer where
  name : String
  position : String
  team : String
deriving DecidableEq

/-- `adp_lookup[k]` on the association-list model of the Python dict. -/
def lookupFind (lk : List (String × AdpPlayer)) (k : String) : Option AdpPlayer :=
  assocFind lk k

/-- One iteration of the insertion loop:
`if variation and variation not in adp_lookup: adp_lookup[variation] = adp_player`. -/
def insertVariation (lk : List (String × AdpPlayer)) (p : AdpPlayer) (v : String) :
    List (String × AdpPlayer) :=
  if v ≠ "" && (lookupFind lk v).isNone then lk ++ [(v, p)] else lk

/-- The per-record body of `create_normalized_name_lookup`: skip records with
a blank name, otherwise insert every generated variation first-writer-wins. -/
def addRecordToLookup (lk : List (String × AdpPlayer)) (p : AdpPlayer) :
    List (String × AdpPlayer) :=
  let originalName := pyStrip p.name
  if originalName = "" then lk
  else (generate_name_variations originalName).foldl (fun lk v => insertVariation lk p v) lk

/-- `create_normalized_name_lookup` of collect_nfl_data.py (the input dict is
modelled as the list of its records, in iteration order). -/
def create_normalized_name_lookup (ps : List AdpPlayer) : List (String × AdpPlayer) :=
  ps.foldl addRecordToLookup []

/-! ## IdentityResolver: the per-player loop of `enhanced_match_players_to_adp`
(collect_nfl_data.py) -/

/-- The `sleeper_variations` list built for one player: variations of the
primary display name, extended with variations of `"{first} {last}"` when
both parts are non-blank (a Python list, so duplicates are kept). -/
def sleeper_variations (playerName firstName lastName : String) : List String :=
  generate_name_variations (pyStrip playerName) ++
    (if pyStrip firstName ≠ "" && pyStrip lastName ≠ "" then
      generate_name_variations (pyStrip firstName ++ " " ++ pyStrip lastName)
    else [])

/-- The matching loop of `enhanced_match_players_to_adp` for one player:
try each variation as an exact key of the lookup; the first hit yields the
matched record together with the `matched_via` variation recorded in
`adp_data`; if no variation hits, the player is unmatched (`adp_data = None`). -/
def enhanced_match_one (playerName firstName lastName : String)
    (lk : List (String × AdpPlayer)) : Option (AdpPlayer × String) :=
  (sleeper_variations playerName firstName lastName).findSome?
    (fun v => (lookupFind lk v).map (fun r => (r, v)))

/-- Modelled from the spec (IdentityResolver step 3, which has no
counterpart in the source): the token-overlap fuzzy acceptance test —
"tokenize the candidate's primary display name into a word set; scan all
index keys, tokenize each, and accept the first index entry whose token set
intersects the candidate's token set in at least 2 positions (or, for
single-word names, at least 1)". -/
def specFuzzyAccepts (candName key : String) : Bool :=
  let candTokens := (pySplit (pyLower candName)).dedup
  let keyTokens := (pySplit (pyLower key)).dedup
  let overlap := candTokens.filter (fun t => keyTokens.contains t)
  overlap.length ≥ (if candTokens.length = 1 then 1 else 2)

/-! ## DeduplicationGate: `save_performance_data` (collect_nfl_data.py) -/

/-- A flattened performance record as deduplicated by
`save_performance_data`; only `sleeper_id` and `week` enter the key, the
point fields make records distinguishable. -/
structure PerfRecord where
  sleeper_id : String
  week : Int
  fantasy_points : Int
  fantasy_points_ppr : Int
deriving DecidableEq

/-- The composite deduplication key `f"{sleeper_id}_{week}"`. -/
def perfKey (r : PerfRecord) : String := r.sleeper_id ++ "_" ++ toString r.week

/-- The append-only-new loop of `save_performance_data`: given the keys seen
so far, returns the new records kept and the number of skipped duplicates. -/
def dedupNewRecords (keys : List String) : List PerfRecord → List PerfRecord × Nat
  | [] => ([], 0)
  | r :: rest =>
    if keys.contains (perfKey r) then
      ((dedupNewRecords keys rest).1, (dedupNewRecords keys rest).2 + 1)
    else
      (r :: (dedupNewRecords (keys ++ [perfKey r]) rest).1,
        (dedupNewRecords (keys ++ [perfKey r]) rest).2)

/-- `save_performance_data` of collect_nfl_data.py: builds the key set of
the existing records, appends only new `matched_records`, and reports the
combined store together with the skipped-duplicate count of its summary. -/
def save_performance_data (existing matched : List PerfRecord) :
    List PerfRecord × Nat :=
  (existing ++ (dedupNewRecords (existing.map perfKey) matched).1,
    (dedupNewRecords (existing.map perfKey) matched).2)

/-! ## PerformanceAggregator: `update_performance_tracking` and
`update_season_totals` (weekly_performance_tracker.py) -/

/-- One row of the weekly stats input (`player_stat`), with the `.get(_, 0)`
defaults already applied.  Point values are Python floats in the source,
modelled over `Int`. -/
structure PlayerStat where
  player_id : String
  player_name : String
  position : String
  team : String
  fantasy_points : Int
  fantasy_points_ppr : Int
  passing_yards : Int
  passing_tds : Int
  interceptions : Int
  rushing_yards : Int
  rushing_tds : Int
  receiving_yards : Int
  receiving_tds : Int
  receptions : Int
  targets : Int
deriving DecidableEq

/-- The `week_performance` dict built from a row. -/
structure WeekPerf where
  week : Nat
  fantasy_points : Int
  fantasy_points_ppr : Int
  passing_yards : Int
  passing_tds : Int
  interceptions : Int
  rushing_yards : Int
  rushing_tds : Int
  receiving_yards : Int
  receiving_tds : Int
  receptions : Int
  targets : Int
  total_tds : Int
deriving DecidableEq

/-- Builds the `week_performance` dict of `update_performance_tracking`
(`total_tds` is the sum of the three touchdown counts). -/
def mk_week_performance (week : Nat) (s : PlayerStat) : WeekPerf :=
  { week := week
  , fantasy_points := s.fantasy_points
  , fantasy_points_ppr := s.fantasy_points_ppr
  , passing_yards := s.passing_yards
  , passing_tds := s.passing_tds
  , interceptions := s.interceptions
  , rushing_yards := s.rushing_yards
  , rushing_tds := s.rushing_tds
  , receiving_yards := s.receiving_yards
  , receiving_tds := s.receiving_tds
  , receptions := s.receptions
  , targets := s.targets
  , total_tds := s.passing_tds + s.rushing_tds + s.receiving_tds }

/-- The `season_totals` dict. -/
structure SeasonTotals where
  games_played : Int
  total_fantasy_points : Int
  total_fantasy_points_ppr : Int
  total_passing_yards : Int
  total_rushing_yards : Int
  total_receiving_yards : Int
  total_tds : Int
  best_week : Int
  worst_week : Int
  consistency_score : Int
deriving DecidableEq

/-- The zeroed `season_totals` of a freshly initialized player
(`worst_week` starts at the sentinel 999). -/
def initSeasonTotals : SeasonTotals :=
  { games_played := 0
  , total_fantasy_points := 0
  , total_fantasy_points_ppr := 0
  , total_passing_yards := 0
  , total_rushing_yards := 0
  , total_receiving_yards := 0
  , total_tds := 0
  , best_week := 0
  , worst_week := 999
  , consistency_score := 0 }

/-- `update_season_totals` of weekly_performance_tracker.py: an incremental
patch of the running sums; `fantasy_points` in its body is the row's PPR
points; `worst_week` is lowered only when those points are positive. -/
def update_season_totals (st : SeasonTotals) (wp : WeekPerf) : SeasonTotals :=
  let fantasy_points := wp.fantasy_points_ppr
  { games_played := st.games_played + 1
  , total_fantasy_points := st.total_fantasy_points + wp.fantasy_points
  , total_fantasy_points_ppr := st.total_fantasy_points_ppr + fantasy_points
  , total_passing_yards := st.total_passing_yards + wp.passing_yards
  , total_rushing_yards := st.total_rushing_yards + wp.rushing_yards
  , total_receiving_yards := st.total_receiving_yards + wp.receiving_yards
  , total_tds := st.total_tds + wp.total_tds
  , best_week := max st.best_week fantasy_points
  , worst_week := if fantasy_points > 0 then min st.worst_week fantasy_points else st.worst_week
  , consistency_score := st.consistency_score }

/-- The `adp_integration` dict attached when the draft database has a
matching player. -/
structure AdpIntegration where
  adp : Int
  draft_round : Int
  volatility_tier : String
  expectations : String
deriving DecidableEq

/-- One draft-database entry, reduced to the fields
`update_performance_tracking` reads (`adp` is the already-defaulted
`adp_data.ppr.adp` value). -/
structure DraftPlayer where
  sleeper_id : String
  name : String
  adp : Int
  draft_round : Int
  volatility_tier : String
deriving DecidableEq

/-- `calculate_expectations` of weekly_performance_tracker.py. -/
def calculate_expectations (adp : Int) : String :=
  if adp ≤ 12 then "Elite weekly performance (15+ points)"
  else if adp ≤ 24 then "High weekly performance (12+ points)"
  else if adp ≤ 60 then "Solid weekly performance (8+ points)"
  else if adp ≤ 120 then "Flex-worthy performance (5+ points)"
  else "Waiver wire/bench production"

/-- The per-player tracking state (`existing_data[player_id]`), without the
timestamp field.  `weekly_performances` is keyed by `str(week)`. -/
structure PlayerData where
  player_name : String
  position : String
  team : String
  weekly_performances : List (String × WeekPerf)
  season_totals : SeasonTotals
  adp_integration : Option AdpIntegration
deriving DecidableEq

/-- The freshly initialized tracking entry for a new player. -/
def init_player_data (s : PlayerStat) : PlayerData :=
  { player_name := s.player_name
  , position := s.position
  , team := s.team
  , weekly_performances := []
  , season_totals := initSeasonTotals
  , adp_integration := none }

/-- The draft-database scan of `update_performance_tracking`: the first
entry whose `sleeper_id` equals the row's id or whose name equals the row's
name case-insensitively. -/
def find_draft_player (draftDb : List (String × DraftPlayer)) (pid pname : String) :
    Option DraftPlayer :=
  (draftDb.find? (fun kv =>
    kv.2.sleeper_id = pid || pyLower kv.2.name = pyLower pname)).map (fun kv => kv.2)

/-- The per-row update applied to one player's entry: attach
`adp_integration` when the draft database matches, insert/replace the
week's record, then incrementally update the season totals. -/
def apply_stat_to_player (draftDb : List (String × DraftPlayer)) (week : Nat)
    (pd : PlayerData) (s : PlayerStat) : PlayerData :=
  let pd :=
    match find_draft_player draftDb s.player_id s.player_name with
    | some dp =>
      let integ : AdpIntegration :=
        { adp := dp.adp
        , draft_round := dp.draft_round
        , volatility_tier := dp.volatility_tier
        , expectations := calculate_expectations dp.adp }
      { pd with adp_integration := some integ }
    | none => pd
  let wp := mk_week_performance week s
  let pd := { pd with weekly_performances := assocSet pd.weekly_performances (toString week) wp }
  { pd with season_totals := update_season_totals pd.season_totals wp }

/-- One iteration of the `for player_stat in week_stats` loop of
`update_performance_tracking`: skip rows without id or name, initialize a
new player entry, then apply the row. -/
def process_player_stat (draftDb : List (String × DraftPlayer)) (week : Nat)
    (store : List (String × PlayerData)) (s : PlayerStat) : List (String × PlayerData) :=
  if s.player_id = "" || s.player_name = "" then store
  else
    let store1 :=
      if (assocFind store s.player_id).isNone then
        assocSet store s.player_id (init_player_data s)
      else store
    match assocFind store1 s.player_id with
    | none => store1
    | some pd => assocSet store1 s.player_id (apply_stat_to_player draftDb week pd s)

/-- The merge loop of `update_performance_tracking` (weekly_performance_tracker.py):
folds one week's rows into the season store.  (Loading, the advanced-metrics
pass — which writes only the separate `advanced_metrics` key — and the final
json dump are outside this in-memory step.) -/
def update_performance_tracking (store : List (String × PlayerData)) (week : Nat)
    (rows : List PlayerStat) (draftDb : List (String × DraftPlayer)) :
    List (String × PlayerData) :=
  rows.foldl (process_player_stat draftDb week) store

/-- A row is processed (not skipped) by the merge loop. -/
def validRow (s : PlayerStat) : Bool := s.player_id ≠ "" && s.player_name ≠ ""

/-- The `games_played` of a player in the store (0 when absent). -/
def gamesOf (store : List (String × PlayerData)) (p : String) : Int :=
  ((assocFind store p).map (fun pd => pd.season_totals.games_played)).getD 0

/-- The `worst_week` of a player in the store (the sentinel 999 when absent,
matching the initialization). -/
def worstOf (store : List (String × PlayerData)) (p : String) : Int :=
  ((assocFind store p).map (fun pd => pd.season_totals.worst_week)).getD 999

/-- The weekly-performances map of a player in the store. -/
def weeklyOf (store : List (String × PlayerData)) (p : String) :
    Option (List (String × WeekPerf)) :=
  (assocFind store p).map (fun pd => pd.weekly_performances)

/-- The list of positive PPR points `calculate_advanced_metrics` extracts
from a weekly-performances map (the sole performance input of every derived
advanced metric). -/
def pprPoints (weekly : List (String × WeekPerf)) : List Int :=
  (weekly.map (fun kv => kv.2.fantasy_points_ppr)).filter (fun p => p > 0)

/-- `season_totals` of a player in the store. -/
def totalsOf (store : List (String × PlayerData)) (p : String) : Option SeasonTotals :=
  (assocFind store p).map (fun pd => pd.season_totals)

/-! ## Persistence: `save_draft_database` (generate_draft_database.py) and the
direct store write of `update_performance_tracking` -/

/-- The observable file state of the draft-database writer: the persisted
file and the temporary file. -/
structure DraftFS where
  draft_file : Option String
  temp_file : Option String
deriving DecidableEq

/-- `save_draft_database` of generate_draft_database.py, as a transition on
the file state: serialize to the temp file (`writeOk` is whether the dump
succeeds), re-parse and assert the structure (`validateOk`), then atomically
replace the persisted file (`os.replace`); any failure removes the temp file
and returns `False`. -/
def save_draft_database (fs : DraftFS) (serialized : String)
    (writeOk validateOk : Bool) : DraftFS × Bool :=
  if writeOk then
    if validateOk then
      ({ draft_file := some serialized, temp_file := none }, true)
    else
      ({ draft_file := fs.draft_file, temp_file := none }, false)
  else
    ({ draft_file := fs.draft_file, temp_file := none }, false)

/-- The store write of `update_performance_tracking` (lines 188-189):
`with open(self.performance_file, 'w') as f: json.dump(existing_data, f)`.
Opening with mode `w` truncates the previous content immediately (so the
result never depends on it), and the dump streams `chunks` one by one; a
failure after `k` chunks leaves exactly the prefix on disk. -/
def tracker_store_write (previous : Option String) (chunks : List String)
    (failAfter : Option Nat) : Option String :=
  match previous, failAfter with
  | _, none => some (joinWith "" chunks)
  | _, some k => some (joinWith "" (chunks.take k))

/-! ## Derived notions used by the theorems -/

/-- Whether a record contributes the variant key `k` to the lookup: its
stripped name is non-blank and `k` is one of its generated variations
(variations are never empty strings, the `k ≠ ""` conjunct mirrors the
`if variation` guard of the insertion loop). -/
def generatesKey (p : AdpPlayer) (k : String) : Bool :=
  pyStrip p.name ≠ "" && (generate_name_variations (pyStrip p.name)).contains k && k ≠ ""

/-- The effect of one processed row on one player's (optional) entry:
initialize if absent, then apply the row. -/
def apply_row (draftDb : List (String × DraftPlayer)) (week : Nat)
    (o : Option PlayerData) (s : PlayerStat) : Option PlayerData :=
  some (apply_stat_to_player draftDb week (o.getD (init_player_data s)) s)

/-- The rows of a batch that the merge loop processes for player `p`. -/
def rowsFor (p : String) (rows : List PlayerStat) : List PlayerStat :=
  rows.filter (fun s => validRow s && s.player_id = p)

/-- `games_played` of an optional player entry (0 when absent). -/
def gamesOpt (o : Option PlayerData) : Int :=
  (o.map (fun pd => pd.season_totals.games_played)).getD 0

/-- `worst_week` of an optional player entry (999 when absent, matching the
sentinel used at initialization). -/
def worstOpt (o : Option PlayerData) : Int :=
  (o.map (fun pd => pd.season_totals.worst_week)).getD 999

/-- The weekly-performances map of an optional player entry. -/
def weeklyD (o : Option PlayerData) : List (String × WeekPerf) :=
  (o.map (fun pd => pd.weekly_performances)).getD []

/-! ## Concrete records used by the scenario theorems -/

/-- The ADP record `"Christian McCaffrey"` of the spec scenario. -/
def mccaffreyRecord : AdpPlayer := { name := "Christian McCaffrey", position := "RB", team := "SF" }

/-- The lookup built from the single record `"Christian McCaffrey"`. -/
def mccaffreyLookup : List (String × AdpPlayer) := create_normalized_name_lookup [mccaffreyRecord]

/-- The ADP record `"DK Metcalf"` of the spec scenario. -/
def dkMetcalfRecord : AdpPlayer := { name := "DK Metcalf", position := "WR", team := "SEA" }

/-- The lookup built from the single record `"DK Metcalf"`. -/
def dkMetcalfLookup : List (String × AdpPlayer) := create_normalized_name_lookup [dkMetcalfRecord]

/-- An ADP record whose name shares two tokens with a longer candidate name. -/
def odellRecord : AdpPlayer := { name := "Odell Beckham", position := "WR", team := "BAL" }

/-- The lookup built from the single record `"Odell Beckham"`. -/
def odellLookup : List (String × AdpPlayer) := create_normalized_name_lookup [odellRecord]

/-- A roster record with a blank display name. -/
def blankRecord : AdpPlayer := { name := "", position := "RB", team := "SF" }

/-- A concrete weekly row for player `p1`. -/
def sampleRow : PlayerStat :=
  { player_id := "p1", player_name := "Player One", position := "RB", team := "SF"
  , fantasy_points := 10, fantasy_points_ppr := 12, passing_yards := 0, passing_tds := 0
  , interceptions := 0, rushing_yards := 80, rushing_tds := 1, receiving_yards := 20
  , receiving_tds := 0, receptions := 2, targets := 3 }

/-- A second week-3 row for the same player `p1` (a duplicate-week merge). -/
def sampleRowDup : PlayerStat :=
  { player_id := "p1", player_name := "Player One", position := "RB", team := "SF"
  , fantasy_points := 7, fantasy_points_ppr := 9, passing_yards := 0, passing_tds := 0
  , interceptions := 0, rushing_yards := 40, rushing_tds := 0, receiving_yards := 30
  , receiving_tds := 1, receptions := 3, targets := 4 }

/-- A weekly row whose PPR points are zero (player `p2`). -/
def zeroPprRow : PlayerStat :=
  { player_id := "p2", player_name := "Player Two", position := "WR", team := "KC"
  , fantasy_points := 0, fantasy_points_ppr := 0, passing_yards := 0, passing_tds := 0
  , interceptions := 0, rushing_yards := 0, rushing_tds := 0, receiving_yards := 0
  , receiving_tds := 0, receptions := 0, targets := 1 }

/-- The store after merging `sampleRow` for week 3 into an empty store. -/
def sampleStore : List (String × PlayerData) := update_performance_tracking [] 3 [sampleRow] []

/-- Two flattened performance records with distinct deduplication keys. -/
def perfRecA : PerfRecord := { sleeper_id := "p1", week := 3, fantasy_points := 10, fantasy_points_ppr := 12 }

/-- A second record, same player, different week. -/
def perfRecB : PerfRecord := { sleeper_id := "p1", week := 4, fantasy_points := 8, fantasy_points_ppr := 11 }

/-! # Theorems -/

/-! ## Association-list lemmas -/

/-- Looking a key up after a dict update. -/
theorem assocFind_assocSet {α : Type} (l : List (String × α)) (k k' : String) (v : α) :
    assocFind (assocSet l k v) k' = if k' = k then some v else assocFind l k' := by
  induction l with
  | nil =>
    by_cases h : k' = k
    · subst h; simp [assocSet, assocFind]
    · simp [assocSet, assocFind, h, Ne.symm h]
  | cons kv rest ih =>
    by_cases h1 : kv.1 = k
    · by_cases h2 : k' = k
      · subst h2; simp [assocSet, assocFind, h1]
      · simp [assocSet, assocFind, h1, h2, Ne.symm h2]
    · by_cases h2 : kv.1 = k'
      · have h3 : ¬ k' = k := fun hh => h1 (h2.trans hh)
        simp [assocSet, assocFind, h1, h2, h3]
      · simp [assocSet, assocFind, h1, h2, ih]

/-- Updating the same key twice keeps only the second value. -/
theorem assocSet_assocSet {α : Type} (l : List (String × α)) (k : String) (v v' : α) :
    assocSet (assocSet l k v) k v' = assocSet l k v' := by
  induction l with
  | nil => simp [assocSet]
  | cons kv rest ih =>
    by_cases h : kv.1 = k
    · simp [assocSet, h]
    · simp [assocSet, h, ih]

/-! ## Per-row lemmas for the merge loop -/

/-- A processed row always increments `games_played` by exactly one
(the incremental patch of `update_season_totals`). -/
theorem apply_stat_games (db : List (String × DraftPlayer)) (w : Nat)
    (pd : PlayerData) (s : PlayerStat) :
    (apply_stat_to_player db w pd s).season_totals.games_played =
      pd.season_totals.games_played + 1 := by
  cases hf : find_draft_player db s.player_id s.player_name <;>
    simp [apply_stat_to_player, hf, update_season_totals]

/-- A row with non-positive PPR points never moves `worst_week`. -/
theorem apply_stat_worst (db : List (String × DraftPlayer)) (w : Nat)
    (pd : PlayerData) (s : PlayerStat) (h : s.fantasy_points_ppr ≤ 0) :
    (apply_stat_to_player db w pd s).season_totals.worst_week =
      pd.season_totals.worst_week := by
  have hnot : ¬ ((mk_week_performance w s).fantasy_points_ppr > 0) := by
    simp [mk_week_performance]; omega
  cases hf : find_draft_player db s.player_id s.player_name <;>
    simp [apply_stat_to_player, hf, update_season_totals, hnot]

/-- A processed row replaces exactly the `str(week)` slot of the player's
weekly map. -/
theorem apply_stat_weekly (db : List (String × DraftPlayer)) (w : Nat)
    (pd : PlayerData) (s : PlayerStat) :
    (apply_stat_to_player db w pd s).weekly_performances =
      assocSet pd.weekly_performances (toString w) (mk_week_performance w s) := by
  cases hf : find_draft_player db s.player_id s.player_name <;>
    simp [apply_stat_to_player, hf]

/-- Normal form of one loop iteration: a valid row rewrites its player's
entry through `apply_stat_to_player` (initializing first when absent), an
invalid row is skipped. -/
theorem process_player_stat_eq (db : List (String × DraftPlayer)) (w : Nat)
    (store : List (String × PlayerData)) (s : PlayerStat) :
    process_player_stat db w store s =
      if validRow s then
        assocSet store s.player_id
          (apply_stat_to_player db w
            ((assocFind store s.player_id).getD (init_player_data s)) s)
      else store := by
  by_cases h1 : s.player_id = ""
  · simp [process_player_stat, validRow, h1]
  · by_cases h2 : s.player_name = ""
    · simp [process_player_stat, validRow, h1, h2]
    · have hv : validRow s = true := by simp [validRow, h1, h2]
      cases ho : assocFind store s.player_id with
      | none =>
        simp [process_player_stat, h1, h2, hv, ho, assocFind_assocSet, assocSet_assocSet]
      | some pd =>
        simp [process_player_stat, h1, h2, hv, ho]

/-! ## Locality: the merge loop acts on each player's entry independently -/

/-- One player's entry after the merge loop is the fold of the rows the
loop processes for that player over the entry's previous value. -/
theorem merge_locality (db : List (String × DraftPlayer)) (w : Nat)
    (rows : List PlayerStat) (store : List (String × PlayerData)) (p : String) :
    assocFind (update_performance_tracking store w rows db) p =
      (rowsFor p rows).foldl (apply_row db w) (assocFind store p) := by
  induction rows generalizing store with
  | nil => rfl
  | cons s rest ih =>
    have hstep :
        update_performance_tracking store w (s :: rest) db =
          update_performance_tracking (process_player_stat db w store s) w rest db := rfl
    rw [hstep, ih, process_player_stat_eq]
    by_cases hv : validRow s = true
    · by_cases hp : s.player_id = p
      · subst hp
        simp [hv, rowsFor, List.filter_cons, assocFind_assocSet, apply_row]
      · simp [hv, hp, rowsFor, List.filter_cons, assocFind_assocSet, Ne.symm hp]
    · simp [hv, rowsFor, List.filter_cons]

/-! ## Fold lemmas for one player's row sequence -/

/-- `games_played` grows by exactly the number of processed rows. -/
theorem foldl_apply_row_games (db : List (String × DraftPlayer)) (w : Nat)
    (rs : List PlayerStat) (o : Option PlayerData) :
    gamesOpt (rs.foldl (apply_row db w) o) = gamesOpt o + (rs.length : Int) := by
  induction rs generalizing o with
  | nil => simp
  | cons s rest ih =>
    rw [List.foldl_cons, ih]
    have hone : gamesOpt (apply_row db w o s) = gamesOpt o + 1 := by
      cases o <;>
        simp [apply_row, gamesOpt, apply_stat_games, init_player_data, initSeasonTotals]
    rw [hone]
    simp only [List.length_cons]
    push_cast
    ring

/-- `worst_week` stays at the 999 sentinel through rows whose PPR points
are non-positive. -/
theorem foldl_apply_row_worst (db : List (String × DraftPlayer)) (w : Nat)
    (rs : List PlayerStat) (o : Option PlayerData) (h0 : worstOpt o = 999)
    (hrs : ∀ s ∈ rs, s.fantasy_points_ppr ≤ 0) :
    worstOpt (rs.foldl (apply_row db w) o) = 999 := by
  induction rs generalizing o with
  | nil => simpa using h0
  | cons s rest ih =>
    rw [List.foldl_cons]
    refine ih (apply_row db w o s) ?_ (fun s' hs' => hrs s' (by simp [hs']))
    have hs := hrs s (by simp)
    cases o with
    | none =>
      simp [apply_row, worstOpt, apply_stat_worst db w _ s hs, init_player_data,
        initSeasonTotals]
    | some pd =>
      have h0' : pd.season_totals.worst_week = 999 := by simpa [worstOpt] using h0
      simp [apply_row, worstOpt, apply_stat_worst db w _ s hs, h0']

/-- The weekly map after a non-empty row sequence: the `str(week)` slot
holds the record built from the last row, everything else is untouched. -/
theorem foldl_apply_row_weekly (db : List (String × DraftPlayer)) (w : Nat)
    (rs : List PlayerStat) (s : PlayerStat) (o : Option PlayerData) :
    (((s :: rs).foldl (apply_row db w) o).map (fun pd => pd.weekly_performances)) =
      some (assocSet (weeklyD o) (toString w) (mk_week_performance w (rs.getLastD s))) := by
  induction rs generalizing s o with
  | nil =>
    cases o <;> simp [apply_row, apply_stat_weekly, weeklyD, init_player_data, List.getLastD]
  | cons s2 rest ih =>
    have hstep : ((s :: s2 :: rest).foldl (apply_row db w) o) =
        ((s2 :: rest).foldl (apply_row db w) (apply_row db w o s)) := rfl
    rw [hstep, ih]
    have hw : weeklyD (apply_row db w o s) =
        assocSet (weeklyD o) (toString w) (mk_week_performance w s) := by
      cases o <;> simp [apply_row, apply_stat_weekly, weeklyD, init_player_data]
    rw [hw, assocSet_assocSet, List.getLastD_cons]

/-- Replaying the same batch leaves every player's weekly map unchanged:
the second pass rewrites each `str(week)` slot with the same record. -/
theorem merge_replay_weekly (db : List (String × DraftPlayer)) (w : Nat)
    (rows : List PlayerStat) (store : List (String × PlayerData)) (p : String) :
    weeklyOf (update_performance_tracking
        (update_performance_tracking store w rows db) w rows db) p =
      weeklyOf (update_performance_tracking store w rows db) p := by
  have hloc1 := merge_locality db w rows store p
  have hloc2 := merge_locality db w rows (update_performance_tracking store w rows db) p
  simp only [weeklyOf]
  rw [hloc2, hloc1]
  cases hF : rowsFor p rows with
  | nil => simp
  | cons s rs =>
    have hmid := foldl_apply_row_weekly db w rs s (assocFind store p)
    have hwd : weeklyD (List.foldl (apply_row db w) (assocFind store p) (s :: rs)) =
        assocSet (weeklyD (assocFind store p)) (toString w)
          (mk_week_performance w (rs.getLastD s)) := by
      simp only [weeklyD]
      rw [hmid]
      rfl
    rw [foldl_apply_row_weekly db w rs s
        (List.foldl (apply_row db w) (assocFind store p) (s :: rs)),
      hwd, assocSet_assocSet, hmid]

/-! ## Claims C1, C2, C10: the aggregation loop -/

/-- C1 (amended): re-running the merge with the identical batch leaves every
player's `weekly_performances` — and therefore the positive-PPR point list
from which the advanced metrics are recomputed — unchanged, but
`season_totals` is incrementally patched rather than recomputed from the
weekly list: the second run adds every processed row into the running sums
again, so `games_played` grows by the number of processed rows instead of
staying equal. -/
theorem merge_replay_weekly_idempotent_totals_incremented
    (store : List (String × PlayerData)) (w : Nat) (rows : List PlayerStat)
    (db : List (String × DraftPlayer)) (p : String) :
    weeklyOf (update_performance_tracking
        (update_performance_tracking store w rows db) w rows db) p =
      weeklyOf (update_performance_tracking store w rows db) p ∧
    (weeklyOf (update_performance_tracking
        (update_performance_tracking store w rows db) w rows db) p).map pprPoints =
      (weeklyOf (update_performance_tracking store w rows db) p).map pprPoints ∧
    gamesOf (update_performance_tracking
        (update_performance_tracking store w rows db) w rows db) p =
      gamesOf (update_performance_tracking store w rows db) p +
        ((rowsFor p rows).length : Int) := by
  refine ⟨merge_replay_weekly db w rows store p, by rw [merge_replay_weekly], ?_⟩
  have hg : ∀ S : List (String × PlayerData), gamesOf S p = gamesOpt (assocFind S p) :=
    fun _ => rfl
  have h1 := merge_locality db w rows store p
  have h2 := merge_locality db w rows (update_performance_tracking store w rows db) p
  rw [hg, hg, h2, h1, foldl_apply_row_games db w (rowsFor p rows)
    (List.foldl (apply_row db w) (assocFind store p) (rowsFor p rows))]

/-- C1 counterexample: merging the identical week-3 batch twice does not
yield the same `season_totals` as merging it once (`games_played` and all
running sums are double-counted), refuting the claimed idempotence. -/
theorem merge_twice_season_totals_differ :
    totalsOf (update_performance_tracking sampleStore 3 [sampleRow] []) "p1" ≠
      totalsOf sampleStore "p1" := by decide

/-- C2 (amended): in `save_performance_data` a row whose `(sleeper_id, week)`
key is already stored is skipped — the stored records are unchanged and the
summary reports one skipped duplicate, without raising.  The tracker's
season-totals store has no such gate: `update_performance_tracking`
re-increments `games_played` for every valid row, also when the row's week
is already recorded. -/
theorem duplicate_week_skip_in_save_but_tracker_increments :
    (∀ (existing : List PerfRecord) (r : PerfRecord),
        (existing.map perfKey).contains (perfKey r) = true →
        save_performance_data existing [r] = (existing, 1)) ∧
    (∀ (store : List (String × PlayerData)) (w : Nat) (s : PlayerStat)
        (db : List (String × DraftPlayer)), validRow s = true →
        gamesOf (update_performance_tracking store w [s] db) s.player_id =
          gamesOf store s.player_id + 1) := by
  constructor
  · intro existing r h
    simp at h
    simp [save_performance_data, dedupNewRecords, h]
  · intro store w s db hv
    have hg : ∀ S : List (String × PlayerData),
        gamesOf S s.player_id = gamesOpt (assocFind S s.player_id) := fun _ => rfl
    have h1 := merge_locality db w [s] store s.player_id
    have hrf : rowsFor s.player_id [s] = [s] := by
      simp [rowsFor, List.filter_cons, hv]
    rw [hg, hg, h1, hrf, foldl_apply_row_games]
    simp

/-- Witness for the amended C2 theorem at concrete inputs: a stored
`(p1, 3)` key makes `save_performance_data` skip the duplicate row and
report it, while the tracker increments `games_played` of `p1` from 1 to 2
although week 3 is already recorded. -/
theorem duplicate_week_skip_witness :
    ((List.map perfKey [perfRecA]).contains (perfKey perfRecA) = true ∧
      save_performance_data [perfRecA] [perfRecA] = ([perfRecA], 1)) ∧
    (validRow sampleRow = true ∧
      gamesOf (update_performance_tracking sampleStore 3 [sampleRow] []) sampleRow.player_id =
        gamesOf sampleStore sampleRow.player_id + 1) :=
  ⟨⟨by decide, duplicate_week_skip_in_save_but_tracker_increments.1 [perfRecA] perfRecA (by decide)⟩,
    ⟨by decide, duplicate_week_skip_in_save_but_tracker_increments.2 sampleStore 3 sampleRow [] (by decide)⟩⟩

/-- C2 counterexample: merging a second week-3 row for a player who already
has week 3 in the store leaves `season_totals` changed (`games_played` goes
from 1 to 2), not unchanged, and no skipped-duplicate is possible since the
tracker has no duplicate check. -/
theorem duplicate_week_merge_changes_totals :
    gamesOf sampleStore "p1" = 1 ∧
    gamesOf (update_performance_tracking sampleStore 3 [sampleRowDup] []) "p1" = 2 ∧
    totalsOf (update_performance_tracking sampleStore 3 [sampleRowDup] []) "p1" ≠
      totalsOf sampleStore "p1" := by decide

/-- C10: a player whose `worst_week` is still the 999 sentinel (in
particular a player not yet in the store) keeps `worst_week = 999` through
any merge whose rows for that player all have non-positive PPR points —
`update_season_totals` lowers `worst_week` only on positive points, and the
persisted store is exactly this in-memory state. -/
theorem worst_week_sentinel_persists
    (store : List (String × PlayerData)) (w : Nat) (rows : List PlayerStat)
    (db : List (String × DraftPlayer)) (p : String)
    (h0 : worstOf store p = 999)
    (hrows : ∀ s ∈ rows, s.player_id = p → s.fantasy_points_ppr ≤ 0) :
    worstOf (update_performance_tracking store w rows db) p = 999 := by
  have hw : ∀ S : List (String × PlayerData), worstOf S p = worstOpt (assocFind S p) :=
    fun _ => rfl
  rw [hw, merge_locality]
  refine foldl_apply_row_worst db w _ _ (by rw [← hw]; exact h0) ?_
  intro s hs
  rcases List.mem_filter.mp hs with ⟨hmem, hcond⟩
  simp only [Bool.and_eq_true, decide_eq_true_eq] at hcond
  exact hrows s hmem hcond.2

/-- Witness for C10 at concrete inputs: merging a zero-PPR week-5 row for a
new player `p2` leaves its persisted `worst_week` at the 999 sentinel. -/
theorem worst_week_sentinel_witness :
    worstOf ([] : List (String × PlayerData)) "p2" = 999 ∧
    (∀ s ∈ [zeroPprRow], s.player_id = "p2" → s.fantasy_points_ppr ≤ 0) ∧
    worstOf (update_performance_tracking [] 5 [zeroPprRow] []) "p2" = 999 :=
  ⟨by decide, by decide,
    worst_week_sentinel_persists [] 5 [zeroPprRow] [] "p2" (by decide) (by decide)⟩

/-! ## Claim C3: the deduplicated record store -/

/-- `contains` agrees with membership on lists of strings. -/
theorem contains_iff_mem (l : List String) (a : String) : l.contains a = true ↔ a ∈ l := by
  simp [List.contains, List.elem_eq_mem]

/-- The dedup loop of `save_performance_data` never emits a key twice nor a
key that was already present. -/
theorem dedupNewRecords_nodup_fresh (matched : List PerfRecord) :
    ∀ keys : List String,
      (((dedupNewRecords keys matched).1).map perfKey).Nodup ∧
      ∀ k ∈ ((dedupNewRecords keys matched).1).map perfKey, ¬ (k ∈ keys) := by
  induction matched with
  | nil => intro keys; simp [dedupNewRecords]
  | cons r rest ih =>
    intro keys
    by_cases h : keys.contains (perfKey r) = true
    · simp only [dedupNewRecords]
      rw [if_pos h]
      exact ih keys
    · simp only [dedupNewRecords]
      rw [if_neg h]
      have h' : ¬ perfKey r ∈ keys := fun hmem => h ((contains_iff_mem _ _).mpr hmem)
      obtain ⟨ihn, ihf⟩ := ih (keys ++ [perfKey r])
      constructor
      · simp only [List.map_cons]
        rw [List.nodup_cons]
        exact ⟨fun hmem => (ihf _ hmem) (by simp), ihn⟩
      · intro k hk
        simp only [List.map_cons, List.mem_cons] at hk
        rcases hk with hk | hk
        · subst hk; exact h'
        · exact fun hmem => (ihf k hk) (by simp [hmem])

/-- C3: `save_performance_data` preserves the store invariant that no two
records share a composite `"{sleeper_id}_{week}"` deduplication key — every
batch row whose key is already present (or occurred earlier in the batch)
is dropped before the combined store is written. -/
theorem store_at_most_one_record_per_key (existing matched : List PerfRecord)
    (h : (existing.map perfKey).Nodup) :
    (((save_performance_data existing matched).1).map perfKey).Nodup := by
  obtain ⟨hn, hf⟩ := dedupNewRecords_nodup_fresh matched (existing.map perfKey)
  simp only [save_performance_data, List.map_append]
  exact h.append hn (fun k hk1 hk2 => hf k hk2 hk1)

/-- Witness for C3 at concrete inputs: saving a batch containing one
duplicate and one new record keeps the store keys duplicate-free. -/
theorem store_at_most_one_record_per_key_witness :
    (List.map perfKey [perfRecA]).Nodup ∧
    (((save_performance_data [perfRecA] [perfRecA, perfRecB]).1).map perfKey).Nodup :=
  ⟨by decide, store_at_most_one_record_per_key [perfRecA] [perfRecA, perfRecB] (by decide)⟩

/-! ## Claim C4: persistence -/

/-- C4 (amended): the draft-database writer is atomic — serialize to a
temporary file, validate by re-parsing, atomically replace — and on a write
or validation failure the temporary artifact is discarded, the previously
persisted file is byte-for-byte untouched and the run reports failure.  (The
weekly tracker's own store write has no such protection; see the
counterexample.) -/
theorem save_draft_database_failure_atomic (fs : DraftFS) (s : String)
    (w v : Bool) (h : w = false ∨ v = false) :
    (save_draft_database fs s w v).1.draft_file = fs.draft_file ∧
    (save_draft_database fs s w v).1.temp_file = none ∧
    (save_draft_database fs s w v).2 = false := by
  rcases h with h | h
  · subst h; simp [save_draft_database]
  · subst h; cases w <;> simp [save_draft_database]

/-- Witness for the amended C4 theorem: a failed validation leaves the
previously persisted draft database untouched with no temporary file. -/
theorem save_draft_database_failure_witness :
    (save_draft_database ⟨some "OLDDATA", none⟩ "NEWDATA" true false).1.draft_file =
      some "OLDDATA" ∧
    (save_draft_database ⟨some "OLDDATA", none⟩ "NEWDATA" true false).1.temp_file = none ∧
    (save_draft_database ⟨some "OLDDATA", none⟩ "NEWDATA" true false).2 = false :=
  save_draft_database_failure_atomic ⟨some "OLDDATA", none⟩ "NEWDATA" true false (Or.inr rfl)

/-- C4 counterexample: the weekly tracker persists its season store with a
plain `open(file, 'w')` + `json.dump` (no temporary file): mode `w`
truncates the previous content immediately, so a dump that fails after its
first chunk leaves on disk a file that is neither the previous store nor the
complete new serialization — a partial write is observable and the previous
store is not left untouched. -/
theorem tracker_store_write_partial_observable :
    tracker_store_write (some "OLDDATA") ["NEWA", "NEWB"] (some 1) = some "NEWA" ∧
    tracker_store_write (some "OLDDATA") ["NEWA", "NEWB"] (some 1) ≠ some "OLDDATA" ∧
    tracker_store_write (some "OLDDATA") ["NEWA", "NEWB"] (some 1) ≠
      tracker_store_write (some "OLDDATA") ["NEWA", "NEWB"] none := by decide

/-! ## Claims C5, C6, C7: the resolver -/

/-- C5 (amended): the matcher tries the generated variants as exact index
keys and, when none hits, reports the candidate unmatched immediately
(`adp_data = None`): a candidate is unmatched exactly when no variant is an
index key — there is no fuzzy token-overlap fallback. -/
theorem unmatched_iff_no_variant_hits (pn fn ln : String)
    (lk : List (String × AdpPlayer)) :
    enhanced_match_one pn fn ln lk = none ↔
      ∀ v ∈ sleeper_variations pn fn ln, lookupFind lk v = none := by
  simp [enhanced_match_one, List.findSome?_eq_none_iff, Option.map_eq_none']

/-- C5 counterexample: the candidate `"Odell Cornelius Beckham"` shares two
token positions with the index key `"odell beckham"`, so the claimed fuzzy
step would accept the entry; the code reports the candidate unmatched
because no exact variant hits and no fallback exists. -/
theorem token_overlap_candidate_still_unmatched :
    enhanced_match_one "Odell Cornelius Beckham" "" "" odellLookup = none ∧
    ∃ kv ∈ odellLookup, specFuzzyAccepts "Odell Cornelius Beckham" kv.1 = true := by decide

/-- C6 (code bug): normalizing `"D.K. Metcalf Jr."` does not produce
`"dk metcalf"`: the suffix loop replaces only the all-lower `" jr"`/`" jr."`
and all-upper `" JR"`/`" JR."` forms, never the title-case `" Jr."`, so the
suffix survives in every variant and the candidate fails to match the index
built from `"DK Metcalf"`. -/
theorem metcalf_jr_suffix_not_stripped :
    generate_name_variations "D.K. Metcalf Jr." =
      ["d.k. metcalf jr.", "dk metcalf jr", "d. metcalf jr.", "d metcalf jr.",
        "dk metcalf jr."] ∧
    (generate_name_variations "D.K. Metcalf Jr.").contains "dk metcalf" = false ∧
    enhanced_match_one "D.K. Metcalf Jr." "" "" dkMetcalfLookup = none := by decide

/-- C7: resolving `"C. McCaffrey"` against the index built from
`"Christian McCaffrey"`: the reverse-initial expansion of the two-character
initial `"C."` generates the variant `"christian mccaffrey"`, that variant
is an exact key of the index mapping to the record, the resolution succeeds,
and the matched variant string is recorded in the result. -/
theorem mccaffrey_initial_expansion_matches :
    ("christian mccaffrey" ∈ generate_name_variations "C. McCaffrey") ∧
    lookupFind mccaffreyLookup "christian mccaffrey" = some mccaffreyRecord ∧
    ∃ vr, enhanced_match_one "C. McCaffrey" "" "" mccaffreyLookup =
        some (mccaffreyRecord, vr) ∧
      vr ∈ sleeper_variations "C. McCaffrey" "" "" ∧
      lookupFind mccaffreyLookup vr = some mccaffreyRecord :=
  ⟨by decide, by decide, ⟨"c. mccaffrey", by decide⟩⟩

/-! ## Claim C8: first-writer-wins index construction -/

/-- Appending a pair cannot shadow an earlier hit. -/
theorem assocFind_append_of_some {α : Type} (l : List (String × α)) (k0 k : String)
    (v r : α) (h : assocFind l k = some r) :
    assocFind (l ++ [(k0, v)]) k = some r := by
  induction l with
  | nil => simp [assocFind] at h
  | cons kv rest ih =>
    by_cases h1 : kv.1 = k
    · simp only [assocFind, h1, if_pos] at h ⊢
      simpa using h
    · simp only [List.cons_append, assocFind, if_neg h1] at h ⊢
      exact ih h

/-- Looking up a key absent from `l` after appending one pair. -/
theorem assocFind_append_of_none {α : Type} (l : List (String × α)) (k0 k : String)
    (v : α) (h : assocFind l k = none) :
    assocFind (l ++ [(k0, v)]) k = if k = k0 then some v else none := by
  induction l with
  | nil =>
    by_cases hk : k = k0
    · subst hk; simp [assocFind]
    · simp [assocFind, hk, Ne.symm hk]
  | cons kv rest ih =>
    by_cases h1 : kv.1 = k
    · simp [assocFind, h1] at h
    · simp only [assocFind, if_neg h1] at h
      simp only [List.cons_append, assocFind, if_neg h1]
      exact ih h

/-- An insertion cannot shadow an earlier hit. -/
theorem insertVariation_find_some (lk : List (String × AdpPlayer)) (p : AdpPlayer)
    (v k : String) (r : AdpPlayer) (h : lookupFind lk k = some r) :
    lookupFind (insertVariation lk p v) k = some r := by
  simp only [insertVariation]
  by_cases hc : (v ≠ "" && (lookupFind lk v).isNone) = true
  · rw [if_pos hc]; exact assocFind_append_of_some lk v k p r h
  · rw [if_neg hc]; exact h

/-- Inserting variation `v` for record `p` fills exactly the slot `v` when
it was empty (and `v` is a non-empty string). -/
theorem insertVariation_find_none (lk : List (String × AdpPlayer)) (p : AdpPlayer)
    (v k : String) (h : lookupFind lk k = none) :
    lookupFind (insertVariation lk p v) k =
      if k = v ∧ v ≠ "" then some p else none := by
  by_cases hv : v = ""
  · subst hv
    have hng : ¬ (("" : String) ≠ "" && (lookupFind lk "").isNone) = true := by simp
    simp only [insertVariation, if_neg hng]
    rw [h, if_neg (fun hh : k = "" ∧ ("" : String) ≠ "" => hh.2 rfl)]
  · by_cases hk : k = v
    · subst hk
      have hc : (k ≠ "" && (lookupFind lk k).isNone) = true := by
        simp [hv, h]
      simp only [insertVariation, if_pos hc]
      rw [if_pos (show (True ∧ ¬k = "") from ⟨trivial, hv⟩)]
      have h2 := assocFind_append_of_none lk k k p h
      rw [if_pos rfl] at h2
      exact h2
    · simp only [insertVariation]
      by_cases hc : (v ≠ "" && (lookupFind lk v).isNone) = true
      · rw [if_pos hc, if_neg (fun hh : k = v ∧ v ≠ "" => hk hh.1)]
        have h2 := assocFind_append_of_none lk v k p h
        rw [if_neg hk] at h2
        exact h2
      · rw [if_neg hc, h, if_neg (fun hh : k = v ∧ v ≠ "" => hk hh.1)]

/-- The variation-insertion fold cannot shadow an earlier hit. -/
theorem foldl_insertVariation_find_some (vs : List String)
    (lk : List (String × AdpPlayer)) (p : AdpPlayer) (k : String) (r : AdpPlayer)
    (h : lookupFind lk k = some r) :
    lookupFind (vs.foldl (fun acc v => insertVariation acc p v) lk) k = some r := by
  induction vs generalizing lk with
  | nil => simpa using h
  | cons v rest ih =>
    rw [List.foldl_cons]
    exact ih _ (insertVariation_find_some lk p v k r h)

/-- After inserting all variations of one record, an absent key resolves to
that record exactly when it is one of the (non-empty) variations. -/
theorem foldl_insertVariation_find_none (vs : List String)
    (lk : List (String × AdpPlayer)) (p : AdpPlayer) (k : String)
    (h : lookupFind lk k = none) :
    lookupFind (vs.foldl (fun acc v => insertVariation acc p v) lk) k =
      if vs.contains k = true ∧ k ≠ "" then some p else none := by
  induction vs generalizing lk with
  | nil => simpa using h
  | cons v rest ih =>
    rw [List.foldl_cons]
    by_cases hcase : k = v ∧ v ≠ ""
    · have h1 : lookupFind (insertVariation lk p v) k = some p := by
        rw [insertVariation_find_none lk p v k h, if_pos hcase]
      rw [foldl_insertVariation_find_some rest _ p k p h1]
      rcases hcase with ⟨hkv, hv⟩
      have hcont : (v :: rest).contains k = true := by
        rw [contains_iff_mem]; subst hkv; simp
      rw [if_pos ⟨hcont, by rw [hkv]; exact hv⟩]
    · have h1 : lookupFind (insertVariation lk p v) k = none := by
        rw [insertVariation_find_none lk p v k h, if_neg hcase]
      rw [ih _ h1]
      have hiff : ((v :: rest).contains k = true ∧ k ≠ "") ↔
          (rest.contains k = true ∧ k ≠ "") := by
        rw [contains_iff_mem, contains_iff_mem]
        by_cases hke : k = ""
        · subst hke; simp
        · have hkv : k ≠ v := fun hh => hcase ⟨hh, by rw [← hh]; exact hke⟩
          simp [List.mem_cons, hkv, hke]
      by_cases hr : rest.contains k = true ∧ k ≠ ""
      · rw [if_pos hr, if_pos (hiff.mpr hr)]
      · rw [if_neg hr, if_neg (fun hh => hr (hiff.mp hh))]

/-- Inserting a whole record's variations cannot shadow an earlier hit. -/
theorem addRecordToLookup_find_some (lk : List (String × AdpPlayer)) (p : AdpPlayer)
    (k : String) (r : AdpPlayer) (h : lookupFind lk k = some r) :
    lookupFind (addRecordToLookup lk p) k = some r := by
  simp only [addRecordToLookup]
  by_cases hn : pyStrip p.name = ""
  · rw [if_pos hn]; exact h
  · rw [if_neg hn]; exact foldl_insertVariation_find_some _ _ _ _ _ h

/-- After inserting one record, an absent key resolves to that record
exactly when the record generates it. -/
theorem addRecordToLookup_find_none (lk : List (String × AdpPlayer)) (p : AdpPlayer)
    (k : String) (h : lookupFind lk k = none) :
    lookupFind (addRecordToLookup lk p) k =
      if generatesKey p k = true then some p else none := by
  simp only [addRecordToLookup]
  by_cases hn : pyStrip p.name = ""
  · rw [if_pos hn, h, if_neg]
    simp [generatesKey, hn]
  · rw [if_neg hn, foldl_insertVariation_find_none _ _ _ _ h]
    have hgen : (generatesKey p k = true) ↔
        ((generate_name_variations (pyStrip p.name)).contains k = true ∧ k ≠ "") := by
      simp [generatesKey, Bool.and_eq_true, decide_eq_true_eq, hn]
    by_cases hc : (generate_name_variations (pyStrip p.name)).contains k = true ∧ k ≠ ""
    · rw [if_pos hc, if_pos (hgen.mpr hc)]
    · rw [if_neg hc, if_neg (fun hh => hc (hgen.mp hh))]

/-- The record-insertion fold cannot shadow an earlier hit. -/
theorem foldl_addRecord_find_some (ps : List AdpPlayer)
    (lk : List (String × AdpPlayer)) (k : String) (r : AdpPlayer)
    (h : lookupFind lk k = some r) :
    lookupFind (ps.foldl addRecordToLookup lk) k = some r := by
  induction ps generalizing lk with
  | nil => simpa using h
  | cons p rest ih =>
    rw [List.foldl_cons]
    exact ih _ (addRecordToLookup_find_some lk p k r h)

/-- Folding records into a lookup in which `k` is absent resolves `k` to
the first record of the list that generates it. -/
theorem foldl_addRecord_find_none (ps : List AdpPlayer)
    (lk : List (String × AdpPlayer)) (k : String) (h : lookupFind lk k = none) :
    lookupFind (ps.foldl addRecordToLookup lk) k =
      ps.find? (fun p => generatesKey p k) := by
  induction ps generalizing lk with
  | nil => simpa using h
  | cons p rest ih =>
    rw [List.foldl_cons]
    by_cases hp : generatesKey p k = true
    · have h1 : lookupFind (addRecordToLookup lk p) k = some p := by
        rw [addRecordToLookup_find_none _ _ _ h, if_pos hp]
      rw [foldl_addRecord_find_some rest _ _ _ h1,
        @List.find?_cons_of_pos AdpPlayer (fun q => generatesKey q k) p rest hp]
    · have h1 : lookupFind (addRecordToLookup lk p) k = none := by
        rw [addRecordToLookup_find_none _ _ _ h, if_neg (by simpa using hp)]
      rw [ih _ h1,
        @List.find?_cons_of_neg AdpPlayer (fun q => generatesKey q k) p rest hp]

/-- C8: index construction is first-writer-wins: looking any variant key up
in the lookup built by `create_normalized_name_lookup` returns exactly the
first record in input order that generates the key (a variation is inserted
only when its key is not yet present, so later collisions are silently
dropped). -/
theorem index_first_writer_wins (ps : List AdpPlayer) (k : String) :
    lookupFind (create_normalized_name_lookup ps) k =
      ps.find? (fun p => generatesKey p k) :=
  foldl_addRecord_find_none ps [] k rfl

/-! ## Claim C9: blank display names -/

/-- C9 (amended): a record whose stripped display name is blank contributes
nothing to the identity index; normalizing an empty (false-y) name yields
the empty variant set; and a candidate whose display name and first/last
name fields are all blank always resolves unmatched, without raising. -/
theorem blank_name_not_indexed_and_unmatched :
    (∀ (pre post : List AdpPlayer) (p : AdpPlayer), pyStrip p.name = "" →
        create_normalized_name_lookup (pre ++ p :: post) =
          create_normalized_name_lookup (pre ++ post)) ∧
    generate_name_variations "" = [] ∧
    (∀ lk : List (String × AdpPlayer), enhanced_match_one "" "" "" lk = none) := by
  refine ⟨?_, rfl, fun lk => rfl⟩
  intro pre post p hp
  have hskip : ∀ lk : List (String × AdpPlayer), addRecordToLookup lk p = lk := by
    intro lk; simp [addRecordToLookup, hp]
  simp [create_normalized_name_lookup, List.foldl_append, List.foldl_cons, hskip]

/-- Witness for the amended C9 theorem: a blank-named record prepended to
the index input leaves the built lookup unchanged. -/
theorem blank_name_not_indexed_witness :
    pyStrip blankRecord.name = "" ∧
    create_normalized_name_lookup ([] ++ blankRecord :: [dkMetcalfRecord]) =
      create_normalized_name_lookup ([] ++ [dkMetcalfRecord]) :=
  ⟨rfl, blank_name_not_indexed_and_unmatched.1 [] [dkMetcalfRecord] blankRecord rfl⟩

/-- C9 counterexample: a roster record with an empty display name but
populated first/last name fields does not resolve unmatched — the matcher
also derives variants from `"{first} {last}"`, and here it matches. -/
theorem blank_display_name_with_parts_matches :
    enhanced_match_one "" "Christian" "McCaffrey" mccaffreyLookup =
      some (mccaffreyRecord, "christian mccaffrey") := by decide
